import Mathlib

/-
  Verification of the restaurant-booking A2A demo (asakohayase/strands-agents-a2a).

  Shallow embedding of the booking ledger, the per-agent availability/booking
  tools, the coordinator's discovery fan-out, the content-part converter, and
  the protocol-bridge error handling, together with theorems settling the
  specification claims about them.

  Conventions of the embedding:
  - SQLite rows of the `bookings` table become `Booking` values; one agent's
    database becomes a `Ledger` (a list of rows plus the AUTOINCREMENT
    counter used by `lastrowid`).
  - SQL `SELECT COUNT(*) ... WHERE date = ? AND time = ? AND status =
    'confirmed'` becomes `confirmedCount`.
  - Python functions returning strings become Lean functions returning
    strings; functions whose observable effect includes which branch was
    taken additionally return that branch as a `Bool` where noted.
  - Network calls made by the coordinator are abstracted as an `attempt`
    parameter yielding `Except String String` (exception message or
    response); everything around that parameter is translated from source.
-/

namespace A2ADemo

deriving instance DecidableEq for Except

/-- One row of the `bookings` table (schema in `create_database` /
    `setup_databases.py`): id is the AUTOINCREMENT primary key, status is
    the TEXT column defaulting to confirmed. -/
structure Booking where
  id : Nat
  date : String
  time : String
  party_size : Nat
  customer_name : String
  status : String
deriving DecidableEq, Repr

/-- One agent's SQLite database: the rows of `bookings` in insertion order
    plus the next AUTOINCREMENT id (the value `cursor.lastrowid` reports on
    the next INSERT). -/
structure Ledger where
  bookings : List Booking
  nextId : Nat
deriving DecidableEq, Repr

/-- The WHERE clause shared by every agent's availability check and booking
    insert: date = ? AND time = ? AND status = 'confirmed'. -/
def matchesSlot (date time : String) (b : Booking) : Bool :=
  b.date == date && b.time == time && b.status == "confirmed"

/-- SELECT COUNT(*) FROM bookings WHERE date = ? AND time = ? AND
    status = 'confirmed'. -/
def confirmedCount (l : Ledger) (date time : String) : Nat :=
  (l.bookings.filter (matchesSlot date time)).length

/-- INSERT INTO bookings (date, time, party_size, customer_name, status)
    VALUES (?, ?, ?, ?, 'confirmed'), assigning the AUTOINCREMENT id. -/
def insertConfirmed (l : Ledger) (date time : String) (party_size : Nat)
    (customer_name : String) : Ledger :=
  { bookings := l.bookings ++
      [{ id := l.nextId, date := date, time := time, party_size := party_size,
         customer_name := customer_name, status := "confirmed" }],
    nextId := l.nextId + 1 }

namespace SushiMaru

/-- Embeds `check_availability` of sushi_maru_agent.py (lines 48-76). The
    Bool records which branch of the `if existing_bookings == 0` test was
    taken (true = the available branch); the String is the exact message
    returned. -/
def check_availability (l : Ledger) (date time : String) (party_size : Nat) :
    Bool × String :=
  let existing_bookings := confirmedCount l date time
  if existing_bookings == 0 then
    (true, "🍣 Available: Table for " ++ toString party_size ++ " people on "
      ++ date ++ " at " ++ time ++ " at Sushi Maru")
  else
    (false, "❌ Not available: Already booked for " ++ date ++ " at " ++ time
      ++ " at Sushi Maru")

/-- Embeds `book_table` of sushi_maru_agent.py (lines 79-118): re-runs the
    confirmed-count query, rejects when `existing_bookings > 0`, otherwise
    inserts one confirmed row and returns the confirmation message (which,
    in this agent, does not mention the assigned id). Returns the updated
    database together with the returned string. -/
def book_table (l : Ledger) (date time : String) (party_size : Nat)
    (customer_name : String) : Ledger × String :=
  let existing_bookings := confirmedCount l date time
  if existing_bookings > 0 then
    (l, "❌ Booking failed: Time slot " ++ date ++ " at " ++ time
      ++ " already taken at Sushi Maru")
  else
    (insertConfirmed l date time party_size customer_name,
     "✅ Booking confirmed at Sushi Maru for " ++ customer_name ++ ", "
       ++ toString party_size ++ " people on " ++ date ++ " at " ++ time)

end SushiMaru

namespace TakoyakiTaro

/-- Embeds `check_availability` of takoyaki_taro_agent.py (lines 37-72).
    The Bool records which branch of `if existing_bookings >= 2` was taken
    (true = available). -/
def check_availability (l : Ledger) (date time : String) (party_size : Nat) :
    Bool × String :=
  let existing_bookings := confirmedCount l date time
  if existing_bookings ≥ 2 then
    (false, "Sorry, no tables available on " ++ date ++ " at " ++ time
      ++ " for " ++ toString party_size ++ " people. Our takoyaki is popular!")
  else
    (true, "Excellent! We have tables available on " ++ date ++ " at " ++ time
      ++ " for " ++ toString party_size
      ++ " people. Perfect for enjoying our famous takoyaki!")

/-- Embeds `book_table` of takoyaki_taro_agent.py (lines 75-123): re-runs
    the confirmed-count query, rejects when `existing_bookings >= 2`,
    otherwise inserts one confirmed row, reads `cursor.lastrowid` as the
    booking id and returns it inside the confirmation message. -/
def book_table (l : Ledger) (date time : String) (party_size : Nat)
    (customer_name : String) : Ledger × String :=
  let existing_bookings := confirmedCount l date time
  if existing_bookings ≥ 2 then
    (l, "Sorry, no tables available on " ++ date ++ " at " ++ time
      ++ ". Our takoyaki is very popular!")
  else
    let booking_id := l.nextId
    (insertConfirmed l date time party_size customer_name,
     "Booking confirmed! Reservation #" ++ toString booking_id ++ " for "
       ++ customer_name ++ " on " ++ date ++ " at " ++ time ++ " for "
       ++ toString party_size
       ++ " people at Takoyaki Taro. We can't wait to serve you our delicious takoyaki!")

end TakoyakiTaro

namespace TokyoRamen

/-- Embeds `check_availability` of tokyo_ramen_agent.py (lines 84-110).
    The Bool records which branch of `if existing_bookings >= 3` was taken
    (true = available). -/
def check_availability (l : Ledger) (date time : String) (party_size : Nat) :
    Bool × String :=
  let existing_bookings := confirmedCount l date time
  if existing_bookings ≥ 3 then
    (false, "Sorry, no tables available on " ++ date ++ " at " ++ time
      ++ " for " ++ toString party_size
      ++ " people. Tokyo Ramen is fully booked!")
  else
    (true, "Great news! We have tables available on " ++ date ++ " at " ++ time
      ++ " for " ++ toString party_size ++ " people at Tokyo Ramen!")

/-- Embeds `book_table` of tokyo_ramen_agent.py (lines 113-151): re-runs
    the confirmed-count query, rejects when `existing_bookings >= 3`,
    otherwise inserts one confirmed row and returns `cursor.lastrowid`
    inside the confirmation message. -/
def book_table (l : Ledger) (date time : String) (party_size : Nat)
    (customer_name : String) : Ledger × String :=
  let existing_bookings := confirmedCount l date time
  if existing_bookings ≥ 3 then
    (l, "Sorry, no tables available on " ++ date ++ " at " ++ time
      ++ ". Tokyo Ramen is fully booked!")
  else
    let booking_id := l.nextId
    (insertConfirmed l date time party_size customer_name,
     "Booking confirmed! Reservation #" ++ toString booking_id ++ " for "
       ++ customer_name ++ " on " ++ date ++ " at " ++ time ++ " for "
       ++ toString party_size ++ " people at Tokyo Ramen.")

end TokyoRamen

/-! Interleaved-execution model of `book_table`.

Each A2A request is handled concurrently and every `book_table` call runs
its SELECT COUNT and its INSERT as two separate sqlite statements with no
transaction spanning them.  An in-flight call is therefore modelled as a
two-phase process: phase one executes the count query against the current
database, phase two acts on the snapshot it read (reject, or insert and
commit).  A schedule is the order in which the scheduler lets processes
take steps; the sequential schedule runs both phases of each call
back-to-back, the racy one interleaves them. -/

/-- Phase of one in-flight `book_table` call: not yet started, holding the
    count it read from the SELECT, or finished (confirmed or rejected). -/
inductive BookPhase
  | ready
  | checked (existing_bookings : Nat)
  | finished (confirmed : Bool)
deriving DecidableEq, BEq, Repr

/-- Shared database plus the phase of every in-flight `book_table` call. -/
structure ConcState where
  ledger : Ledger
  procs : List BookPhase
deriving DecidableEq, Repr

/-- One scheduler step of Takoyaki Taro's `book_table`
    (takoyaki_taro_agent.py lines 75-123): process `i` either executes its
    SELECT COUNT (lines 93-101), or acts on the count it already read
    (lines 103-118: reject when `existing_bookings >= 2`, else INSERT and
    commit). A process that has finished, or an index out of range, leaves
    the state unchanged. -/
def bookTableStep (date time : String) (party_size : Nat) (customer_name : String)
    (s : ConcState) (i : Nat) : ConcState :=
  match s.procs.get? i with
  | some BookPhase.ready =>
      { s with procs := s.procs.set i (BookPhase.checked (confirmedCount s.ledger date time)) }
  | some (BookPhase.checked existing_bookings) =>
      if existing_bookings ≥ 2 then
        { s with procs := s.procs.set i (BookPhase.finished false) }
      else
        { ledger := insertConfirmed s.ledger date time party_size customer_name,
          procs := s.procs.set i (BookPhase.finished true) }
  | _ => s

/-- Run a schedule of interleaving choices over the concurrent state. -/
def runBookSchedule (date time : String) (party_size : Nat) (customer_name : String)
    (s : ConcState) (sched : List Nat) : ConcState :=
  sched.foldl (bookTableStep date time party_size customer_name) s

/-! Content part converter (takoyaki_taro_agent.py lines 348-463).

The canonical A2A side is the tagged union TextPart / FilePart(FileWithUri)
/ FilePart(FileWithBytes); the native GenAI side is a record whose fields
text / file_data / inline_data are each optional.  Python truthiness is
significant here: both None and the empty string are falsy, which is
modelled by `optStrTruthy`. -/

/-- A2A file payload: FileWithUri (uri required, mimeType optional) or
    FileWithBytes (bytes required, mimeType optional). -/
inductive FileVariant
  | withUri (uri : String) (mimeType : Option String)
  | withBytes (bytes : String) (mimeType : Option String)
deriving DecidableEq, Repr

/-- The root of an A2A Part: TextPart or FilePart. -/
inductive A2APartRoot
  | textPart (text : String)
  | filePart (file : FileVariant)
deriving DecidableEq, Repr

/-- Native types.FileData: file_uri and mime_type, both optional. -/
structure FileData where
  file_uri : Option String
  mime_type : Option String
deriving DecidableEq, Repr

/-- Native types.Blob: inline data (bytes, modelled as the decoded string)
    and mime_type, both optional. -/
structure Blob where
  data : Option String
  mime_type : Option String
deriving DecidableEq, Repr

/-- Native types.Part: at most one of text / file_data / inline_data set. -/
structure GenaiPart where
  text : Option String := none
  file_data : Option FileData := none
  inline_data : Option Blob := none
deriving DecidableEq, Repr

/-- Python truthiness of an optional string: None and the empty string are
    falsy, every other string is truthy. -/
def optStrTruthy : Option String → Bool
  | none => false
  | some s => !s.isEmpty

/-- Python `x or dflt` on an optional string: the string itself when
    truthy, otherwise the default. -/
def pyOrDefault (x : Option String) (dflt : String) : String :=
  if optStrTruthy x then x.getD "" else dflt

/-- Embeds `convert_a2a_part_to_genai` (takoyaki_taro_agent.py lines
    364-403): TextPart becomes a text part; FileWithUri becomes file_data
    with the mime type passed through unchecked; FileWithBytes becomes
    inline_data with `root.file.mimeType or "application/octet-stream"`.
    The ValueError branches of the source fire only for shapes outside
    this closed union, so on the embedded variants the result is always
    ok; the Except return type keeps the raising behaviour composable. -/
def convert_a2a_part_to_genai : A2APartRoot → Except String GenaiPart
  | A2APartRoot.textPart t => Except.ok { text := some t }
  | A2APartRoot.filePart (FileVariant.withUri uri mimeType) =>
      Except.ok { file_data := some { file_uri := some uri, mime_type := mimeType } }
  | A2APartRoot.filePart (FileVariant.withBytes bytes mimeType) =>
      Except.ok { inline_data := some { data := some bytes, mime_type := some (pyOrDefault mimeType "application/octet-stream") } }

/-- Embeds `convert_a2a_parts_to_genai` (lines 348-361): converts each part
    in order; the first raised error propagates. -/
def convert_a2a_parts_to_genai (parts : List A2APartRoot) :
    Except String (List GenaiPart) :=
  parts.mapM convert_a2a_part_to_genai

/-- Embeds `convert_genai_part_to_a2a` (takoyaki_taro_agent.py lines
    423-463), preserving the Python truthiness tests: `if part.text:`
    treats the empty string like None, the file_data branch errors only on
    a missing/empty URI, the inline_data branch only on a missing/empty
    payload, and a part with none of the three raises Unsupported part
    type (the f-string payload of the source's ValueError messages is
    elided). The mime type is passed through without any check. -/
def convert_genai_part_to_a2a (p : GenaiPart) : Except String A2APartRoot :=
  if optStrTruthy p.text then
    Except.ok (A2APartRoot.textPart (p.text.getD ""))
  else
    match p.file_data with
    | some fd =>
        if !optStrTruthy fd.file_uri then Except.error "File URI is missing"
        else Except.ok (A2APartRoot.filePart
          (FileVariant.withUri (fd.file_uri.getD "") fd.mime_type))
    | none =>
        match p.inline_data with
        | some blob =>
            if !optStrTruthy blob.data then Except.error "Inline data is missing"
            else Except.ok (A2APartRoot.filePart
              (FileVariant.withBytes (blob.data.getD "") blob.mime_type))
        | none => Except.error "Unsupported part type"

/-- Embeds `convert_genai_parts_to_a2a` (lines 406-420): parts carrying
    neither (truthy) text nor a file payload are filtered out, the rest
    are converted in order with the first raised error propagating. -/
def convert_genai_parts_to_a2a (parts : List GenaiPart) :
    Except String (List A2APartRoot) :=
  (parts.filter (fun p =>
      optStrTruthy p.text || p.file_data.isSome || p.inline_data.isSome)).mapM
    convert_genai_part_to_a2a

/-- Round trip of one canonical part: convert to the native representation
    and back. -/
def roundTripPart (p : A2APartRoot) : Except String A2APartRoot :=
  match convert_a2a_part_to_genai p with
  | Except.ok g => convert_genai_part_to_a2a g
  | Except.error e => Except.error e

/-! Protocol bridge outcomes.

The bridge drives one task through the A2A lifecycle.  The wrapped
runtime's behaviour is the input: either the list of events/items it
streamed, or the message of the exception it raised (Except.error).  The
outcome records the terminal task state reached, the artifacts attached,
and the last status message emitted. -/

/-- A2A task lifecycle states. -/
inductive TaskState
  | submitted
  | working
  | input_required
  | completed
  | failed
deriving DecidableEq, Repr

/-- An artifact attached to a task: optional name plus its parts. -/
structure Artifact where
  name : Option String
  parts : List A2APartRoot
deriving DecidableEq, Repr

/-- Final observable outcome of one `execute` call: task state, attached
    artifacts, last status-update message. -/
structure TaskOutcome where
  state : TaskState
  artifacts : List Artifact
  statusMessage : Option (List A2APartRoot)
deriving DecidableEq, Repr

/-- One item yielded by TokyoRamenAgent.stream (tokyo_ramen_agent.py
    lines 200-240). -/
structure StreamItem where
  is_task_complete : Bool
  require_user_input : Bool
  content : String
deriving DecidableEq, Repr

/-- Embeds the streaming loop of TokyoRamenAgentExecutor.execute
    (tokyo_ramen_agent.py lines 334-365): a working item updates the
    status and continues; a require_user_input item moves the task to
    input_required and stops; a complete item attaches the booking_result
    artifact and completes.  A stream that ends without either leaves the
    task working. -/
def TokyoRamen.processItems (lastMsg : Option (List A2APartRoot)) :
    List StreamItem → TaskOutcome
  | [] => { state := TaskState.working, artifacts := [], statusMessage := lastMsg }
  | item :: rest =>
      let parts : List A2APartRoot := [A2APartRoot.textPart item.content]
      if !item.is_task_complete && !item.require_user_input then
        TokyoRamen.processItems (some parts) rest
      else if item.require_user_input then
        { state := TaskState.input_required, artifacts := [],
          statusMessage := some parts }
      else
        { state := TaskState.completed,
          artifacts := [{ name := some "booking_result", parts := parts }],
          statusMessage := lastMsg }

/-- Embeds TokyoRamenAgentExecutor.execute (tokyo_ramen_agent.py lines
    292-376) as a function of the wrapped runtime's behaviour: on a
    normally streamed run the items are processed by the loop; on an
    uncaught exception the handler (lines 367-376) attaches an
    error_response artifact carrying the message and completes the task
    instead of re-raising. -/
def TokyoRamen.execute (run : Except String (List StreamItem)) : TaskOutcome :=
  match run with
  | Except.ok items => TokyoRamen.processItems none items
  | Except.error e =>
      { state := TaskState.completed,
        artifacts := [{ name := some "error_response", parts := [A2APartRoot.textPart ("Error processing request: " ++ e)] }],
        statusMessage := none }

/-- One ADK event streamed by the wrapped runtime (google.adk Event as
    consumed by _process_request, takoyaki_taro_agent.py lines 187-233). -/
structure AdkEvent where
  is_final_response : Bool
  has_function_calls : Bool
  parts : List GenaiPart
deriving DecidableEq, Repr

/-- Embeds the event loop of TakoyakiTaroAgentExecutor._process_request
    (takoyaki_taro_agent.py lines 206-233): a final-response event has its
    content converted, attached as an (unnamed) artifact and completes the
    task; an intermediate non-tool event has its content converted and
    emitted as a working status update; a function-call event is skipped.
    A conversion ValueError propagates out of the loop (to the caller's
    exception handler). -/
def TakoyakiTaro.processEvents (lastMsg : Option (List A2APartRoot)) :
    List AdkEvent → Except String TaskOutcome
  | [] => Except.ok { state := TaskState.working, artifacts := [], statusMessage := lastMsg }
  | ev :: rest =>
      if ev.is_final_response then
        match convert_genai_parts_to_a2a ev.parts with
        | Except.ok parts =>
            Except.ok { state := TaskState.completed,
                        artifacts := [{ name := none, parts := parts }],
                        statusMessage := lastMsg }
        | Except.error e => Except.error e
      else if !ev.has_function_calls then
        match convert_genai_parts_to_a2a ev.parts with
        | Except.ok parts => TakoyakiTaro.processEvents (some parts) rest
        | Except.error e => Except.error e
      else
        TakoyakiTaro.processEvents lastMsg rest

/-- Embeds TakoyakiTaroAgentExecutor.execute (takoyaki_taro_agent.py lines
    235-290) as a function of the wrapped runtime's behaviour: a normally
    streamed run is processed by the event loop; any exception raised
    inside the try block — by the runtime or by a part conversion — is
    caught by the handler (lines 288-290), which calls
    updater.fail("Agent execution error: ...").  The task ends failed with
    that status message and no artifact. -/
def TakoyakiTaro.execute (run : Except String (List AdkEvent)) : TaskOutcome :=
  match run with
  | Except.ok events =>
      match TakoyakiTaro.processEvents none events with
      | Except.ok o => o
      | Except.error e =>
          { state := TaskState.failed, artifacts := [],
            statusMessage := some [A2APartRoot.textPart ("Agent execution error: " ++ e)] }
  | Except.error e =>
      { state := TaskState.failed, artifacts := [],
        statusMessage := some [A2APartRoot.textPart ("Agent execution error: " ++ e)] }

/-! Coordinator: discovery fan-out and per-agent dispatch
(customer_coordinator.py and tools/restaurant_tools.py).

The registry `discover_restaurants` returns is a Python dict from name to
info; dict iteration order is insertion order, so it is modelled as an
association list.  The network send performed inside `query_restaurant`'s
try block is abstracted as the `attempt` parameter: the outcome of
contacting one agent is either its extracted response text or the message
of the exception that was raised.  Everything around `attempt` follows the
source. -/

/-- Discovery record stored per restaurant (customer_coordinator.py line
    41): the base url (the capability card is carried alongside it but not
    consulted by the dispatch paths modelled here). -/
structure RestaurantInfo where
  url : String
deriving DecidableEq, Repr

/-- Embeds `query_restaurant` (customer_coordinator.py lines 48-115): the
    try body — resolving the card, sending the message and extracting the
    response text — is abstracted as its outcome `attempt`; the except
    handler (lines 113-115) turns any raised exception into the inline
    error string returned as a normal result. -/
def query_restaurant (attempt : Except String String) : String :=
  match attempt with
  | Except.ok response => response
  | Except.error e => "Error communicating with restaurant: " ++ e

/-- The structured availability query string built by
    `check_all_availability` (customer_coordinator.py line 127). -/
def availability_query (date time : String) (party_size : Nat) : String :=
  "Check availability for " ++ toString party_size ++ " people on "
    ++ date ++ " at " ++ time

/-- Embeds the fan-out loop of `check_all_availability`
    (customer_coordinator.py lines 130-134, identically
    tools/restaurant_tools.py lines 41-45): for each discovered restaurant
    in registry order, send the query and append the labeled response.
    Returns the (restaurant, query) messages sent and the result lines. -/
def queryLoop (attempt : String → RestaurantInfo → String → Except String String)
    (query : String) :
    List (String × RestaurantInfo) → List (String × String) × List String
  | [] => ([], [])
  | (name, info) :: rest =>
      let response := query_restaurant (attempt name info query)
      let (sent, results) := queryLoop attempt query rest
      ((name, query) :: sent, ("**" ++ name ++ "**: " ++ response) :: results)

/-- Embeds `check_all_availability` (customer_coordinator.py lines
    117-136, identically tools/restaurant_tools.py lines 18-47): takes the
    registry returned by the `discover_restaurants` call it starts with;
    when it is empty, returns the no-restaurants sentinel without
    contacting anyone; otherwise queries every discovered restaurant and
    joins the labeled results with newlines. -/
def check_all_availability (restaurants : List (String × RestaurantInfo))
    (attempt : String → RestaurantInfo → String → Except String String)
    (date time : String) (party_size : Nat) :
    List (String × String) × String :=
  if restaurants.isEmpty then
    ([], "❌ No restaurants are currently available.")
  else
    let query := availability_query date time party_size
    let (sent, results) := queryLoop attempt query restaurants
    (sent, String.intercalate "\n" results)

/-- The list of labeled per-restaurant result lines accumulated by the
    fan-out loop (the `results` list of the source before joining). -/
def availabilityResults
    (restaurants : List (String × RestaurantInfo))
    (attempt : String → RestaurantInfo → String → Except String String)
    (query : String) : List String :=
  (queryLoop attempt query restaurants).2

/-- The structured cancellation query string built by the cancel paths
    (tools/restaurant_tools.py line 94, customer_coordinator.py line 334). -/
def cancel_query (customer_name date time : String) : String :=
  "Cancel booking for " ++ customer_name ++ " on " ++ date ++ " at " ++ time

/-- Embeds `cancel_booking` (tools/restaurant_tools.py lines 79-96, the
    same resolution pattern as customer_coordinator.py lines 327-338):
    resolve the named restaurant in the discovery registry; when present,
    send it the cancellation query and return the response; when absent,
    return the not-available message without contacting any agent.
    Returns the (restaurant, query) messages sent and the result. -/
def cancel_booking (restaurants : List (String × RestaurantInfo))
    (attempt : String → RestaurantInfo → String → Except String String)
    (restaurant_name date time customer_name : String) :
    List (String × String) × String :=
  match List.lookup restaurant_name restaurants with
  | some info =>
      let query := cancel_query customer_name date time
      ([(restaurant_name, query)],
       query_restaurant (attempt restaurant_name info query))
  | none => ([], "❌ Restaurant " ++ restaurant_name ++ " is not available.")

/-! The booking ledger's cancel operation.

No agent under src/ implements a cancellation tool: the coordinator's
cancel path builds and dispatches the cancellation query, but the ledger
operation the spec documents for the receiving agent does not appear in
the sources.  It is therefore modelled from the spec. -/

/-- Result of the ledger cancel operation. -/
inductive CancelResult
  | success
  | notFound
deriving DecidableEq, Repr

/-- The exact-match predicate of the spec's cancel: a confirmed booking
    matching (date, time, customerName). -/
def matchesCancel (date time customer_name : String) (b : Booking) : Bool :=
  b.date == date && b.time == time && b.customer_name == customer_name
    && b.status == "confirmed"

/-- Locate the first confirmed booking exactly matching (date, time,
    customerName) and set its status to cancelled, leaving every other row
    unchanged; none when no row matches. -/
def cancelFirst (date time customer_name : String) :
    List Booking → Option (List Booking)
  | [] => none
  | b :: rest =>
      if matchesCancel date time customer_name b then
        some ({ b with status := "cancelled" } :: rest)
      else
        match cancelFirst date time customer_name rest with
        | some rest2 => some (b :: rest2)
        | none => none

/-- Modelled from the spec: the per-agent ledger operation
    cancel(date, time, customerName), which no agent under src/
    implements — it locates a confirmed booking exactly matching
    (date, time, customerName) and sets its status to cancelled,
    reporting success; the spec leaves the no-match behaviour an open
    question, modelled here as a notFound result that changes nothing. -/
def cancel_booking_ledger (l : Ledger) (date time customer_name : String) :
    Ledger × CancelResult :=
  match cancelFirst date time customer_name l.bookings with
  | some bs => ({ l with bookings := bs }, CancelResult.success)
  | none => (l, CancelResult.notFound)

/-! Theorems. -/

/-- Claim C2: for every ledger and every (date, time, partySize) input,
    each agent's availability check takes the available branch if and only
    if the count of confirmed bookings exactly matching (date, time) is
    strictly below the agent's capacity (Sushi Maru 1, Takoyaki Taro 2,
    Tokyo Ramen 3), and partySize has no effect on the decision: two calls
    differing only in partySize decide identically. -/
theorem c2_availability_iff_under_capacity (l : Ledger) (d t : String) (ps ps2 : Nat) :
    ((SushiMaru.check_availability l d t ps).1 = true ↔ confirmedCount l d t < 1) ∧
    ((TakoyakiTaro.check_availability l d t ps).1 = true ↔ confirmedCount l d t < 2) ∧
    ((TokyoRamen.check_availability l d t ps).1 = true ↔ confirmedCount l d t < 3) ∧
    (SushiMaru.check_availability l d t ps).1 = (SushiMaru.check_availability l d t ps2).1 ∧
    (TakoyakiTaro.check_availability l d t ps).1 = (TakoyakiTaro.check_availability l d t ps2).1 ∧
    (TokyoRamen.check_availability l d t ps).1 = (TokyoRamen.check_availability l d t ps2).1 := by
  refine ⟨?_, ?_, ?_, ?_, ?_, ?_⟩ <;>
    simp only [SushiMaru.check_availability, TakoyakiTaro.check_availability,
      TokyoRamen.check_availability] <;>
    split_ifs with h <;> simp_all

/-- Claim C3, counterexample: Sushi Maru's book_table does not return the
    assigned booking id — two bookings whose assigned ids differ (1 vs 42,
    read off the inserted rows) produce the very same returned result, so
    the assigned id is not part of what book returns for this agent. -/
theorem c3_sushi_id_not_returned :
    (SushiMaru.book_table { bookings := [], nextId := 1 } "2025-07-25" "19:00" 4 "John Smith").2
      = (SushiMaru.book_table { bookings := [], nextId := 42 } "2025-07-25" "19:00" 4 "John Smith").2
    ∧ (SushiMaru.book_table { bookings := [], nextId := 1 } "2025-07-25" "19:00" 4 "John Smith").1.bookings.map Booking.id = [1]
    ∧ (SushiMaru.book_table { bookings := [], nextId := 42 } "2025-07-25" "19:00" 4 "John Smith").1.bookings.map Booking.id = [42] := by
  decide

/-- Claim C3, amended: every agent's book_table re-checks the same
    under-capacity predicate as its availability check; exactly when the
    check is in the available branch, book inserts one new confirmed
    booking carrying the next AUTOINCREMENT id and returns its
    confirmation as a normal result (Takoyaki Taro and Tokyo Ramen quote
    the assigned id in that result, Sushi Maru does not); otherwise it
    returns the capacity-rejection message as a normal result. -/
theorem c3_book_recheck_and_insert (l : Ledger) (d t : String) (ps : Nat) (n : String) :
    (((SushiMaru.check_availability l d t ps).1 = true →
        SushiMaru.book_table l d t ps n =
          (insertConfirmed l d t ps n,
           "✅ Booking confirmed at Sushi Maru for " ++ n ++ ", " ++ toString ps
             ++ " people on " ++ d ++ " at " ++ t)) ∧
      ((SushiMaru.check_availability l d t ps).1 = false →
        SushiMaru.book_table l d t ps n =
          (l, "❌ Booking failed: Time slot " ++ d ++ " at " ++ t
            ++ " already taken at Sushi Maru"))) ∧
    (((TakoyakiTaro.check_availability l d t ps).1 = true →
        TakoyakiTaro.book_table l d t ps n =
          (insertConfirmed l d t ps n,
           "Booking confirmed! Reservation #" ++ toString l.nextId ++ " for " ++ n
             ++ " on " ++ d ++ " at " ++ t ++ " for " ++ toString ps
             ++ " people at Takoyaki Taro. We can't wait to serve you our delicious takoyaki!")) ∧
      ((TakoyakiTaro.check_availability l d t ps).1 = false →
        TakoyakiTaro.book_table l d t ps n =
          (l, "Sorry, no tables available on " ++ d ++ " at " ++ t
            ++ ". Our takoyaki is very popular!"))) ∧
    (((TokyoRamen.check_availability l d t ps).1 = true →
        TokyoRamen.book_table l d t ps n =
          (insertConfirmed l d t ps n,
           "Booking confirmed! Reservation #" ++ toString l.nextId ++ " for " ++ n
             ++ " on " ++ d ++ " at " ++ t ++ " for " ++ toString ps
             ++ " people at Tokyo Ramen.")) ∧
      ((TokyoRamen.check_availability l d t ps).1 = false →
        TokyoRamen.book_table l d t ps n =
          (l, "Sorry, no tables available on " ++ d ++ " at " ++ t
            ++ ". Tokyo Ramen is fully booked!"))) := by
  refine ⟨⟨?_, ?_⟩, ⟨?_, ?_⟩, ⟨?_, ?_⟩⟩ <;>
    simp only [SushiMaru.check_availability, SushiMaru.book_table,
      TakoyakiTaro.check_availability, TakoyakiTaro.book_table,
      TokyoRamen.check_availability, TokyoRamen.book_table] <;>
    intro h <;> split_ifs at h ⊢ <;> simp_all

/-- Witness for c3_book_recheck_and_insert: on an empty Sushi Maru ledger
    the availability check is in the available branch, and booking inserts
    the confirmed row and returns the confirmation. -/
theorem c3_book_recheck_and_insert_witness :
    (SushiMaru.check_availability { bookings := [], nextId := 1 } "2025-07-25" "19:00" 4).1 = true ∧
    SushiMaru.book_table { bookings := [], nextId := 1 } "2025-07-25" "19:00" 4 "John Smith" =
      (insertConfirmed { bookings := [], nextId := 1 } "2025-07-25" "19:00" 4 "John Smith",
       "✅ Booking confirmed at Sushi Maru for " ++ "John Smith" ++ ", " ++ toString 4
         ++ " people on " ++ "2025-07-25" ++ " at " ++ "19:00") :=
  ⟨by decide,
   (c3_book_recheck_and_insert { bookings := [], nextId := 1 } "2025-07-25" "19:00" 4 "John Smith").1.1 (by decide)⟩

/-- Claim C10: whenever book_table is invoked for a slot already at the
    agent's capacity, the rejection path leaves the database untouched:
    the ledger returned is the ledger passed in, rows and AUTOINCREMENT
    counter included. -/
theorem c10_reject_leaves_ledger_unchanged (l : Ledger) (d t : String) (ps : Nat) (n : String) :
    (1 ≤ confirmedCount l d t → (SushiMaru.book_table l d t ps n).1 = l) ∧
    (2 ≤ confirmedCount l d t → (TakoyakiTaro.book_table l d t ps n).1 = l) ∧
    (3 ≤ confirmedCount l d t → (TokyoRamen.book_table l d t ps n).1 = l) := by
  refine ⟨?_, ?_, ?_⟩ <;> intro h <;>
    simp only [SushiMaru.book_table, TakoyakiTaro.book_table, TokyoRamen.book_table] <;>
    split_ifs with h2 <;> first | rfl | omega

/-- Witness for c10_reject_leaves_ledger_unchanged: a ledger holding three
    confirmed bookings at the slot is at (or beyond) every agent's
    capacity, and each agent's rejection returns it unchanged. -/
theorem c10_reject_leaves_ledger_unchanged_witness :
    1 ≤ confirmedCount { bookings := [{ id := 1, date := "2025-07-25", time := "19:00", party_size := 2, customer_name := "A", status := "confirmed" }, { id := 2, date := "2025-07-25", time := "19:00", party_size := 2, customer_name := "B", status := "confirmed" }, { id := 3, date := "2025-07-25", time := "19:00", party_size := 2, customer_name := "C", status := "confirmed" }], nextId := 4 } "2025-07-25" "19:00" ∧
    2 ≤ confirmedCount { bookings := [{ id := 1, date := "2025-07-25", time := "19:00", party_size := 2, customer_name := "A", status := "confirmed" }, { id := 2, date := "2025-07-25", time := "19:00", party_size := 2, customer_name := "B", status := "confirmed" }, { id := 3, date := "2025-07-25", time := "19:00", party_size := 2, customer_name := "C", status := "confirmed" }], nextId := 4 } "2025-07-25" "19:00" ∧
    3 ≤ confirmedCount { bookings := [{ id := 1, date := "2025-07-25", time := "19:00", party_size := 2, customer_name := "A", status := "confirmed" }, { id := 2, date := "2025-07-25", time := "19:00", party_size := 2, customer_name := "B", status := "confirmed" }, { id := 3, date := "2025-07-25", time := "19:00", party_size := 2, customer_name := "C", status := "confirmed" }], nextId := 4 } "2025-07-25" "19:00" ∧
    (SushiMaru.book_table { bookings := [{ id := 1, date := "2025-07-25", time := "19:00", party_size := 2, customer_name := "A", status := "confirmed" }, { id := 2, date := "2025-07-25", time := "19:00", party_size := 2, customer_name := "B", status := "confirmed" }, { id := 3, date := "2025-07-25", time := "19:00", party_size := 2, customer_name := "C", status := "confirmed" }], nextId := 4 } "2025-07-25" "19:00" 4 "X").1 = { bookings := [{ id := 1, date := "2025-07-25", time := "19:00", party_size := 2, customer_name := "A", status := "confirmed" }, { id := 2, date := "2025-07-25", time := "19:00", party_size := 2, customer_name := "B", status := "confirmed" }, { id := 3, date := "2025-07-25", time := "19:00", party_size := 2, customer_name := "C", status := "confirmed" }], nextId := 4 } ∧
    (TakoyakiTaro.book_table { bookings := [{ id := 1, date := "2025-07-25", time := "19:00", party_size := 2, customer_name := "A", status := "confirmed" }, { id := 2, date := "2025-07-25", time := "19:00", party_size := 2, customer_name := "B", status := "confirmed" }, { id := 3, date := "2025-07-25", time := "19:00", party_size := 2, customer_name := "C", status := "confirmed" }], nextId := 4 } "2025-07-25" "19:00" 4 "X").1 = { bookings := [{ id := 1, date := "2025-07-25", time := "19:00", party_size := 2, customer_name := "A", status := "confirmed" }, { id := 2, date := "2025-07-25", time := "19:00", party_size := 2, customer_name := "B", status := "confirmed" }, { id := 3, date := "2025-07-25", time := "19:00", party_size := 2, customer_name := "C", status := "confirmed" }], nextId := 4 } ∧
    (TokyoRamen.book_table { bookings := [{ id := 1, date := "2025-07-25", time := "19:00", party_size := 2, customer_name := "A", status := "confirmed" }, { id := 2, date := "2025-07-25", time := "19:00", party_size := 2, customer_name := "B", status := "confirmed" }, { id := 3, date := "2025-07-25", time := "19:00", party_size := 2, customer_name := "C", status := "confirmed" }], nextId := 4 } "2025-07-25" "19:00" 4 "X").1 = { bookings := [{ id := 1, date := "2025-07-25", time := "19:00", party_size := 2, customer_name := "A", status := "confirmed" }, { id := 2, date := "2025-07-25", time := "19:00", party_size := 2, customer_name := "B", status := "confirmed" }, { id := 3, date := "2025-07-25", time := "19:00", party_size := 2, customer_name := "C", status := "confirmed" }], nextId := 4 } :=
  ⟨by decide, by decide, by decide,
   (c10_reject_leaves_ledger_unchanged _ "2025-07-25" "19:00" 4 "X").1 (by decide),
   (c10_reject_leaves_ledger_unchanged _ "2025-07-25" "19:00" 4 "X").2.1 (by decide),
   (c10_reject_leaves_ledger_unchanged _ "2025-07-25" "19:00" 4 "X").2.2 (by decide)⟩

/-- Claim C1 (evidence that the code violates it): the check-then-insert
    of book_table is two separate sqlite statements with no transaction
    spanning them. With Takoyaki Taro's capacity 2 and 10 concurrent
    book_table calls for (2025-07-25, 19:00) on an empty database, the
    interleaving that runs all ten SELECT COUNT checks before any INSERT
    ends with 10 confirmed bookings at the slot — overbooking the claim
    says can never happen — whereas the schedule that happens to run each
    call's two steps back-to-back (the atomic behaviour the spec demands)
    ends with exactly 2 confirmed bookings and 8 rejections. -/
theorem c1_toctou_overbooking :
    confirmedCount (runBookSchedule "2025-07-25" "19:00" 4 "Guest"
        { ledger := { bookings := [], nextId := 1 }, procs := List.replicate 10 BookPhase.ready }
        (List.range 10 ++ List.range 10)).ledger "2025-07-25" "19:00" = 10 ∧
    confirmedCount (runBookSchedule "2025-07-25" "19:00" 4 "Guest"
        { ledger := { bookings := [], nextId := 1 }, procs := List.replicate 10 BookPhase.ready }
        ((List.range 10).flatMap (fun i => [i, i]))).ledger "2025-07-25" "19:00" = 2 ∧
    ((runBookSchedule "2025-07-25" "19:00" 4 "Guest"
        { ledger := { bookings := [], nextId := 1 }, procs := List.replicate 10 BookPhase.ready }
        ((List.range 10).flatMap (fun i => [i, i]))).procs.filter
          (fun p => p == BookPhase.finished false)).length = 8 := by
  decide

/-- Helper for the cancel operation: when some row of the list satisfies
    the exact-match predicate, cancelFirst rewrites precisely the first
    such row to cancelled and keeps everything else. -/
theorem cancelFirst_of_any {d t n : String} :
    ∀ bs : List Booking, bs.any (matchesCancel d t n) = true →
      ∃ pre b post, bs = pre ++ b :: post ∧ matchesCancel d t n b = true ∧
        (∀ b2 ∈ pre, matchesCancel d t n b2 = false) ∧
        cancelFirst d t n bs = some (pre ++ { b with status := "cancelled" } :: post)
  | [], h => by simp at h
  | b :: rest, h => by
      by_cases hb : matchesCancel d t n b = true
      · exact ⟨[], b, rest, rfl, hb, by simp, by simp [cancelFirst, hb]⟩
      · have hrest : rest.any (matchesCancel d t n) = true := by
          simp only [List.any_cons, hb, Bool.false_or] at h
          exact h
        obtain ⟨pre, b1, post, hbs, hb1, hpre, hcf⟩ := cancelFirst_of_any rest hrest
        refine ⟨b :: pre, b1, post, by simp [hbs], hb1, ?_, ?_⟩
        · intro b2 hb2
          rcases List.mem_cons.mp hb2 with h2 | h2
          · subst h2; exact Bool.eq_false_iff.mpr hb
          · exact hpre b2 h2
        · simp [cancelFirst, hb, hcf]

/-- Claim C4: when the ledger holds a confirmed booking exactly matching
    (date, time, customerName), the cancel operation reports success and
    rewrites exactly that (first-matching) booking's status to cancelled,
    leaving every other row and the id counter unchanged; and the
    coordinator's cancel path, having resolved the named agent in the
    discovery registry, sends it exactly the one cancellation query that
    the ledger operation acts on this way. -/
theorem c4_cancel_matching_confirmed (l : Ledger) (d t n : String)
    (rs : List (String × RestaurantInfo))
    (attempt : String → RestaurantInfo → String → Except String String)
    (rn : String) (info : RestaurantInfo)
    (hmatch : l.bookings.any (matchesCancel d t n) = true)
    (hdisc : List.lookup rn rs = some info) :
    (cancel_booking_ledger l d t n).2 = CancelResult.success ∧
    (∃ pre b post, l.bookings = pre ++ b :: post ∧ matchesCancel d t n b = true ∧
      (∀ b2 ∈ pre, matchesCancel d t n b2 = false) ∧
      (cancel_booking_ledger l d t n).1.bookings
        = pre ++ { b with status := "cancelled" } :: post ∧
      (cancel_booking_ledger l d t n).1.nextId = l.nextId) ∧
    (cancel_booking rs attempt rn d t n).1 = [(rn, cancel_query n d t)] := by
  obtain ⟨pre, b, post, hbs, hb, hpre, hcf⟩ := cancelFirst_of_any l.bookings hmatch
  refine ⟨?_, ⟨pre, b, post, hbs, hb, hpre, ?_, ?_⟩, ?_⟩
  · simp [cancel_booking_ledger, hcf]
  · simp [cancel_booking_ledger, hcf]
  · simp [cancel_booking_ledger, hcf]
  · simp [cancel_booking, hdisc]

/-- Witness for c4_cancel_matching_confirmed: a ledger with one confirmed
    booking by John Smith at the slot, and a registry in which Sushi Maru
    was discovered. -/
theorem c4_cancel_matching_confirmed_witness :
    ({ bookings := [{ id := 1, date := "2025-07-25", time := "20:00", party_size := 4, customer_name := "John Smith", status := "confirmed" }], nextId := 2 } : Ledger).bookings.any (matchesCancel "2025-07-25" "20:00" "John Smith") = true ∧
    List.lookup "Sushi Maru" [("Sushi Maru", ({ url := "http://localhost:9001" } : RestaurantInfo))] = some { url := "http://localhost:9001" } ∧
    ((cancel_booking_ledger { bookings := [{ id := 1, date := "2025-07-25", time := "20:00", party_size := 4, customer_name := "John Smith", status := "confirmed" }], nextId := 2 } "2025-07-25" "20:00" "John Smith").2 = CancelResult.success ∧
     (∃ pre b post, ({ bookings := [{ id := 1, date := "2025-07-25", time := "20:00", party_size := 4, customer_name := "John Smith", status := "confirmed" }], nextId := 2 } : Ledger).bookings = pre ++ b :: post ∧ matchesCancel "2025-07-25" "20:00" "John Smith" b = true ∧
       (∀ b2 ∈ pre, matchesCancel "2025-07-25" "20:00" "John Smith" b2 = false) ∧
       (cancel_booking_ledger { bookings := [{ id := 1, date := "2025-07-25", time := "20:00", party_size := 4, customer_name := "John Smith", status := "confirmed" }], nextId := 2 } "2025-07-25" "20:00" "John Smith").1.bookings
         = pre ++ { b with status := "cancelled" } :: post ∧
       (cancel_booking_ledger { bookings := [{ id := 1, date := "2025-07-25", time := "20:00", party_size := 4, customer_name := "John Smith", status := "confirmed" }], nextId := 2 } "2025-07-25" "20:00" "John Smith").1.nextId = 2) ∧
     (cancel_booking [("Sushi Maru", { url := "http://localhost:9001" })] (fun _ _ _ => Except.ok "Booking cancelled") "Sushi Maru" "2025-07-25" "20:00" "John Smith").1
       = [("Sushi Maru", cancel_query "John Smith" "2025-07-25" "20:00")]) :=
  ⟨by decide, by decide,
   c4_cancel_matching_confirmed
     { bookings := [{ id := 1, date := "2025-07-25", time := "20:00", party_size := 4, customer_name := "John Smith", status := "confirmed" }], nextId := 2 }
     "2025-07-25" "20:00" "John Smith"
     [("Sushi Maru", { url := "http://localhost:9001" })]
     (fun _ _ _ => Except.ok "Booking cancelled")
     "Sushi Maru" { url := "http://localhost:9001" }
     (by decide) (by decide)⟩

/-- Claim C5, counterexample: Takoyaki Taro's bridge does not drive a task
    whose wrapped runtime raised to Completed with an error artifact — its
    exception handler calls updater.fail, leaving the task failed with no
    artifact at all. -/
theorem c5_takoyaki_fails_not_completes :
    (TakoyakiTaro.execute (Except.error "boom")).state = TaskState.failed ∧
    (TakoyakiTaro.execute (Except.error "boom")).state ≠ TaskState.completed ∧
    (TakoyakiTaro.execute (Except.error "boom")).artifacts = [] := by
  decide

/-- Claim C5, amended: both bridges capture an uncaught exception from the
    wrapped runtime rather than re-raising it, but they land differently:
    Tokyo Ramen's handler attaches a synthetic error_response artifact
    carrying the message and completes the task, while Takoyaki Taro's
    handler marks the task failed with an error status message and
    attaches no artifact. -/
theorem c5_exception_handling (e : String) :
    TokyoRamen.execute (Except.error e) =
      { state := TaskState.completed,
        artifacts := [{ name := some "error_response", parts := [A2APartRoot.textPart ("Error processing request: " ++ e)] }],
        statusMessage := none } ∧
    TakoyakiTaro.execute (Except.error e) =
      { state := TaskState.failed, artifacts := [],
        statusMessage := some [A2APartRoot.textPart ("Agent execution error: " ++ e)] } :=
  ⟨rfl, rfl⟩

/-- Claim C6, counterexample: a file-by-reference part with no mime type
    converts successfully in both directions — neither direction fails on
    a missing mime type. -/
theorem c6_missing_mime_still_converts :
    convert_a2a_part_to_genai (A2APartRoot.filePart (FileVariant.withUri "https://example.com/menu.pdf" none))
      = Except.ok { text := none, file_data := some { file_uri := some "https://example.com/menu.pdf", mime_type := none }, inline_data := none } ∧
    convert_genai_part_to_a2a { text := none, file_data := some { file_uri := some "https://example.com/menu.pdf", mime_type := none }, inline_data := none }
      = Except.ok (A2APartRoot.filePart (FileVariant.withUri "https://example.com/menu.pdf" none)) := by
  decide

/-- Helper: Python truthiness of a missing optional string is false. -/
theorem optStrTruthy_none : optStrTruthy none = false := rfl

/-- Claim C6, amended: file part conversion never checks the mime type in
    either direction — it is passed through unchanged (file-by-reference
    both ways, inline-bytes native→canonical) or defaulted to
    application/octet-stream (inline-bytes canonical→native); what the
    native→canonical direction does fail on is a missing or empty URI or
    byte payload. -/
theorem c6_mime_never_required (uri bytes : String) (mime : Option String)
    (fd : FileData) (blob : Blob)
    (hfd : optStrTruthy fd.file_uri = true)
    (hblob : optStrTruthy blob.data = true) :
    convert_a2a_part_to_genai (A2APartRoot.filePart (FileVariant.withUri uri mime))
      = Except.ok { text := none, file_data := some { file_uri := some uri, mime_type := mime }, inline_data := none } ∧
    convert_a2a_part_to_genai (A2APartRoot.filePart (FileVariant.withBytes bytes mime))
      = Except.ok { text := none, file_data := none, inline_data := some { data := some bytes, mime_type := some (pyOrDefault mime "application/octet-stream") } } ∧
    convert_genai_part_to_a2a { text := none, file_data := some fd, inline_data := none }
      = Except.ok (A2APartRoot.filePart (FileVariant.withUri (fd.file_uri.getD "") fd.mime_type)) ∧
    convert_genai_part_to_a2a { text := none, file_data := none, inline_data := some blob }
      = Except.ok (A2APartRoot.filePart (FileVariant.withBytes (blob.data.getD "") blob.mime_type)) ∧
    (∀ fd2 : FileData, optStrTruthy fd2.file_uri = false →
      convert_genai_part_to_a2a { text := none, file_data := some fd2, inline_data := none }
        = Except.error "File URI is missing") ∧
    (∀ blob2 : Blob, optStrTruthy blob2.data = false →
      convert_genai_part_to_a2a { text := none, file_data := none, inline_data := some blob2 }
        = Except.error "Inline data is missing") := by
  refine ⟨rfl, rfl, ?_, ?_, ?_, ?_⟩
  · simp [convert_genai_part_to_a2a, optStrTruthy_none, hfd]
  · simp [convert_genai_part_to_a2a, optStrTruthy_none, hblob]
  · intro fd2 h2
    simp [convert_genai_part_to_a2a, optStrTruthy_none, h2]
  · intro blob2 h2
    simp [convert_genai_part_to_a2a, optStrTruthy_none, h2]

/-- Witness for c6_mime_never_required: concrete file parts, all without a
    mime type, and native parts with a present URI and payload. -/
theorem c6_mime_never_required_witness :
    optStrTruthy ({ file_uri := some "https://example.com/a.png", mime_type := none } : FileData).file_uri = true ∧
    optStrTruthy ({ data := some "payload", mime_type := none } : Blob).data = true ∧
    (convert_a2a_part_to_genai (A2APartRoot.filePart (FileVariant.withUri "https://example.com/a.png" none))
      = Except.ok { text := none, file_data := some { file_uri := some "https://example.com/a.png", mime_type := none }, inline_data := none } ∧
    convert_a2a_part_to_genai (A2APartRoot.filePart (FileVariant.withBytes "payload" none))
      = Except.ok { text := none, file_data := none, inline_data := some { data := some "payload", mime_type := some (pyOrDefault none "application/octet-stream") } } ∧
    convert_genai_part_to_a2a { text := none, file_data := some { file_uri := some "https://example.com/a.png", mime_type := none }, inline_data := none }
      = Except.ok (A2APartRoot.filePart (FileVariant.withUri (Option.getD (some "https://example.com/a.png") "") none)) ∧
    convert_genai_part_to_a2a { text := none, file_data := none, inline_data := some { data := some "payload", mime_type := none } }
      = Except.ok (A2APartRoot.filePart (FileVariant.withBytes (Option.getD (some "payload") "") none)) ∧
    (∀ fd2 : FileData, optStrTruthy fd2.file_uri = false →
      convert_genai_part_to_a2a { text := none, file_data := some fd2, inline_data := none }
        = Except.error "File URI is missing") ∧
    (∀ blob2 : Blob, optStrTruthy blob2.data = false →
      convert_genai_part_to_a2a { text := none, file_data := none, inline_data := some blob2 }
        = Except.error "Inline data is missing")) :=
  ⟨by decide, by decide,
   c6_mime_never_required "https://example.com/a.png" "payload" none
     { file_uri := some "https://example.com/a.png", mime_type := none }
     { data := some "payload", mime_type := none }
     (by decide) (by decide)⟩

/-- Claim C7, counterexample: the round trip is not an identity for every
    text string — converting Text of the empty string to the native form
    and back fails (Python's truthiness test treats the empty text like a
    missing one), instead of yielding the part back. -/
theorem c7_empty_text_roundtrip_fails :
    roundTripPart (A2APartRoot.textPart "") = Except.error "Unsupported part type" ∧
    roundTripPart (A2APartRoot.textPart "") ≠ Except.ok (A2APartRoot.textPart "") := by
  decide

/-- Claim C7, amended: for every non-empty text string the round trip is a
    lossless identity — Text s converts to the native text part and back
    to exactly Text s. -/
theorem c7_text_roundtrip_identity (s : String) (h : s ≠ "") :
    roundTripPart (A2APartRoot.textPart s) = Except.ok (A2APartRoot.textPart s) := by
  have hs : s.isEmpty = false := by
    rcases hEmp : s.isEmpty with _ | _
    · rfl
    · exact absurd ((String.isEmpty_iff s).mp hEmp) h
  simp [roundTripPart, convert_a2a_part_to_genai, convert_genai_part_to_a2a, optStrTruthy, hs]

/-- Witness for c7_text_roundtrip_identity at the spec's example string. -/
theorem c7_text_roundtrip_identity_witness :
    "hello" ≠ "" ∧
    roundTripPart (A2APartRoot.textPart "hello") = Except.ok (A2APartRoot.textPart "hello") :=
  ⟨by decide, c7_text_roundtrip_identity "hello" (by decide)⟩

/-- Helper: the fan-out loop sends the query once to each restaurant in
    registry order and produces one labeled line per restaurant in the
    same order. -/
theorem queryLoop_eq_map (attempt : String → RestaurantInfo → String → Except String String)
    (q : String) :
    ∀ rs : List (String × RestaurantInfo),
      queryLoop attempt q rs =
        (rs.map (fun r => (r.1, q)),
         rs.map (fun r => "**" ++ r.1 ++ "**: " ++ query_restaurant (attempt r.1 r.2 q)))
  | [] => rfl
  | (name, info) :: rest => by
      simp [queryLoop, queryLoop_eq_map attempt q rest]

/-- Claim C8: on an empty discovery registry the availability fan-out
    returns the no-agents sentinel as a normal result and sends nothing;
    on a non-empty registry it sends the availability query exactly once
    to every discovered agent and joins one labeled entry per agent, in
    registry iteration order. -/
theorem c8_fanout_report (rs : List (String × RestaurantInfo))
    (attempt : String → RestaurantInfo → String → Except String String)
    (d t : String) (ps : Nat) :
    (rs = [] →
      check_all_availability rs attempt d t ps
        = ([], "❌ No restaurants are currently available.")) ∧
    (rs ≠ [] →
      check_all_availability rs attempt d t ps
        = (rs.map (fun r => (r.1, availability_query d t ps)),
           String.intercalate "\n" (rs.map (fun r =>
             "**" ++ r.1 ++ "**: " ++ query_restaurant (attempt r.1 r.2 (availability_query d t ps)))))) := by
  constructor
  · intro h
    subst h
    rfl
  · intro h
    have hne : rs.isEmpty = false := by
      cases rs with
      | nil => exact absurd rfl h
      | cons a l => rfl
    simp [check_all_availability, hne, queryLoop_eq_map]

/-- Witness for c8_fanout_report on a two-restaurant registry. -/
theorem c8_fanout_report_witness :
    ([("Sushi Maru", ({ url := "http://localhost:9001" } : RestaurantInfo)), ("Tokyo Ramen", { url := "http://localhost:9002" })] : List (String × RestaurantInfo)) ≠ [] ∧
    check_all_availability [("Sushi Maru", { url := "http://localhost:9001" }), ("Tokyo Ramen", { url := "http://localhost:9002" })] (fun _ _ _ => Except.ok "available") "2025-07-25" "19:00" 4
      = (([("Sushi Maru", { url := "http://localhost:9001" }), ("Tokyo Ramen", { url := "http://localhost:9002" })] : List (String × RestaurantInfo)).map (fun r => (r.1, availability_query "2025-07-25" "19:00" 4)),
         String.intercalate "\n" (([("Sushi Maru", { url := "http://localhost:9001" }), ("Tokyo Ramen", { url := "http://localhost:9002" })] : List (String × RestaurantInfo)).map (fun r =>
           "**" ++ r.1 ++ "**: " ++ query_restaurant ((fun (_ : String) (_ : RestaurantInfo) (_ : String) => Except.ok "available") r.1 r.2 (availability_query "2025-07-25" "19:00" 4))))) :=
  ⟨by decide,
   (c8_fanout_report [("Sushi Maru", { url := "http://localhost:9001" }), ("Tokyo Ramen", { url := "http://localhost:9002" })] (fun _ _ _ => Except.ok "available") "2025-07-25" "19:00" 4).2 (by decide)⟩

/-- Helper: mapping two functions over the same list yields pointwise-
    related zips — positions whose element satisfies P and on which the
    two functions agree produce equal entries. -/
theorem zip_map_congr {α γ : Type} (P : α → Prop) (f g : α → γ) :
    ∀ l : List α, (∀ a ∈ l, P a → f a = g a) →
      ∀ p ∈ l.zip ((l.map f).zip (l.map g)), P p.1 → p.2.1 = p.2.2
  | [], _, p, hp, _ => by simp at hp
  | a :: l, h, p, hp, hP => by
      simp only [List.map_cons, List.zip_cons_cons] at hp
      rcases List.mem_cons.mp hp with h2 | h2
      · subst h2
        exact h a (List.mem_cons_self a l) hP
      · exact zip_map_congr P f g l (fun x hx => h x (List.mem_cons_of_mem a hx)) p h2 hP

/-- Claim C9: a failure while querying one discovered agent is rendered as
    that agent's inline error line in the fan-out results (returned as a
    normal result, the exception having been consumed), and the entries at
    every other position of the results are unaffected by it: they agree
    with the results of any run whose per-agent outcomes match everywhere
    except at the failing agent. -/
theorem c9_per_agent_failure_isolated (rs : List (String × RestaurantInfo))
    (attempt attempt' : String → RestaurantInfo → String → Except String String)
    (q name : String) (info : RestaurantInfo) (e : String)
    (hmem : (name, info) ∈ rs)
    (hfail : attempt name info q = Except.error e)
    (hagree : ∀ r ∈ rs, r.1 ≠ name → attempt' r.1 r.2 q = attempt r.1 r.2 q) :
    query_restaurant (Except.error e) = "Error communicating with restaurant: " ++ e ∧
    ("**" ++ name ++ "**: " ++ query_restaurant (Except.error e)) ∈ availabilityResults rs attempt q ∧
    ∀ p ∈ rs.zip ((availabilityResults rs attempt q).zip (availabilityResults rs attempt' q)),
      p.1.1 ≠ name → p.2.1 = p.2.2 := by
  have h1 : availabilityResults rs attempt q
      = rs.map (fun r => "**" ++ r.1 ++ "**: " ++ query_restaurant (attempt r.1 r.2 q)) := by
    simp [availabilityResults, queryLoop_eq_map]
  have h2 : availabilityResults rs attempt' q
      = rs.map (fun r => "**" ++ r.1 ++ "**: " ++ query_restaurant (attempt' r.1 r.2 q)) := by
    simp [availabilityResults, queryLoop_eq_map]
  refine ⟨rfl, ?_, ?_⟩
  · rw [h1]
    refine List.mem_map.mpr ⟨(name, info), hmem, ?_⟩
    rw [hfail]
  · rw [h1, h2]
    exact zip_map_congr (fun r => r.1 ≠ name)
      (fun r => "**" ++ r.1 ++ "**: " ++ query_restaurant (attempt r.1 r.2 q))
      (fun r => "**" ++ r.1 ++ "**: " ++ query_restaurant (attempt' r.1 r.2 q))
      rs (fun r hr hP => by simp only [hagree r hr hP])

/-- Witness for c9_per_agent_failure_isolated: Tokyo Ramen's query raises
    while Sushi Maru's succeeds; the comparison run succeeds everywhere
    and agrees away from Tokyo Ramen. -/
theorem c9_per_agent_failure_isolated_witness :
    (("Tokyo Ramen", ({ url := "http://localhost:9002" } : RestaurantInfo)) ∈ ([("Sushi Maru", { url := "http://localhost:9001" }), ("Tokyo Ramen", { url := "http://localhost:9002" })] : List (String × RestaurantInfo))) ∧
    ((fun (nm : String) (_ : RestaurantInfo) (_ : String) => if nm == "Tokyo Ramen" then Except.error "Connection refused" else Except.ok "available") "Tokyo Ramen" { url := "http://localhost:9002" } "Check availability for 4 people on 2025-07-25 at 19:00" = Except.error "Connection refused") ∧
    (∀ r ∈ ([("Sushi Maru", { url := "http://localhost:9001" }), ("Tokyo Ramen", { url := "http://localhost:9002" })] : List (String × RestaurantInfo)), r.1 ≠ "Tokyo Ramen" →
      (fun (_ : String) (_ : RestaurantInfo) (_ : String) => Except.ok "available") r.1 r.2 "Check availability for 4 people on 2025-07-25 at 19:00"
        = (fun (nm : String) (_ : RestaurantInfo) (_ : String) => if nm == "Tokyo Ramen" then Except.error "Connection refused" else Except.ok "available") r.1 r.2 "Check availability for 4 people on 2025-07-25 at 19:00") ∧
    (query_restaurant (Except.error "Connection refused") = "Error communicating with restaurant: " ++ "Connection refused" ∧
     ("**" ++ "Tokyo Ramen" ++ "**: " ++ query_restaurant (Except.error "Connection refused")) ∈ availabilityResults [("Sushi Maru", { url := "http://localhost:9001" }), ("Tokyo Ramen", { url := "http://localhost:9002" })] (fun nm _ _ => if nm == "Tokyo Ramen" then Except.error "Connection refused" else Except.ok "available") "Check availability for 4 people on 2025-07-25 at 19:00" ∧
     ∀ p ∈ ([("Sushi Maru", { url := "http://localhost:9001" }), ("Tokyo Ramen", { url := "http://localhost:9002" })] : List (String × RestaurantInfo)).zip ((availabilityResults [("Sushi Maru", { url := "http://localhost:9001" }), ("Tokyo Ramen", { url := "http://localhost:9002" })] (fun nm _ _ => if nm == "Tokyo Ramen" then Except.error "Connection refused" else Except.ok "available") "Check availability for 4 people on 2025-07-25 at 19:00").zip (availabilityResults [("Sushi Maru", { url := "http://localhost:9001" }), ("Tokyo Ramen", { url := "http://localhost:9002" })] (fun _ _ _ => Except.ok "available") "Check availability for 4 people on 2025-07-25 at 19:00")),
       p.1.1 ≠ "Tokyo Ramen" → p.2.1 = p.2.2) :=
  ⟨by decide, by decide, by decide,
   c9_per_agent_failure_isolated
     [("Sushi Maru", { url := "http://localhost:9001" }), ("Tokyo Ramen", { url := "http://localhost:9002" })]
     (fun nm _ _ => if nm == "Tokyo Ramen" then Except.error "Connection refused" else Except.ok "available")
     (fun _ _ _ => Except.ok "available")
     "Check availability for 4 people on 2025-07-25 at 19:00" "Tokyo Ramen"
     { url := "http://localhost:9002" } "Connection refused"
     (by decide) (by decide) (by decide)⟩

end A2ADemo
